import Mathlib

/-!
Verification of the ExitWave position-monitoring core.

Shallow embedding of the Python sources (`exitwave/positions.py`,
`exitwave/executor.py`, `exitwave/monitor.py`, `exitwave/config.py`):
Python floats are modelled as rationals, position quantities as integers,
broker interaction as an explicit oracle (`Broker`), and the monitor's
mutable instance attributes as an explicit state record.
-/

/-- One parsed F&O position (`positions.py`, class `FnOPosition`). -/
structure FnOPosition where
  tradingsymbol : String
  exchange : String
  instrument_token : Int
  product : String
  quantity : Int
  average_price : ℚ
  last_price : ℚ
  pnl : ℚ
  m2m : ℚ
  buy_quantity : Int
  sell_quantity : Int
  buy_price : ℚ
  sell_price : ℚ
deriving Repr, DecidableEq

/-- Property `FnOPosition.is_open`: the position is open iff net quantity is non-zero. -/
def FnOPosition.isOpen (p : FnOPosition) : Bool :=
  p.quantity ≠ 0

/-- Function `parse_fno_positions`: keep the raw positions whose exchange is in the
configured exchange list (Python `pos.get("exchange","") not in exchanges`,
an exact membership test on strings). -/
def parse_fno_positions (raw_positions : List FnOPosition)
    (exchanges : List String) : List FnOPosition :=
  raw_positions.filter (fun pos => decide (pos.exchange ∈ exchanges))

/-- Function `get_open_fno_positions`: parse then keep only open (non-zero quantity)
positions.  The Kite fetch is modelled by passing the raw snapshot in. -/
def get_open_fno_positions (raw : List FnOPosition)
    (exchanges : List String) : List FnOPosition :=
  (parse_fno_positions raw exchanges).filter (fun p => p.isOpen)

/-- Function `calculate_total_pnl`: sum of the `pnl` field. -/
def calculate_total_pnl (positions : List FnOPosition) : ℚ :=
  (positions.map FnOPosition.pnl).sum

/-- Python `str.upper` restricted to the ASCII venue codes used here. -/
def strUpper (s : String) : String :=
  String.mk (s.data.map Char.toUpper)

/-- Python `str.strip`: drop leading and trailing whitespace. -/
def strStrip (s : String) : String :=
  String.mk (((s.data.dropWhile Char.isWhitespace).reverse.dropWhile
    Char.isWhitespace).reverse)

/-- The `build_config` venue normalisation (`config.py` line 156):
`[e.strip().upper() for e in cli.exchanges.split(",")]`, with the split
already applied. -/
def build_exchanges (cli_exchanges : List String) : List String :=
  cli_exchanges.map (fun e => strUpper (strStrip e))

/-- A concrete position used to instantiate theorems on sample inputs. -/
def samplePosition (sym exch : String) (qty : Int) (pnlValue : ℚ) :
    FnOPosition :=
  { tradingsymbol := sym, exchange := exch, instrument_token := 1,
    product := "NRML", quantity := qty, average_price := 100,
    last_price := 90, pnl := pnlValue, m2m := pnlValue, buy_quantity := 0,
    sell_quantity := 0, buy_price := 0, sell_price := 0 }

/-- A status-history entry as returned by `kite.order_history` (the fields
`verify_exit_orders` reads). -/
structure OrderEntry where
  status : String
  status_message : String
deriving Repr, DecidableEq

/-- The broker oracle standing for the authenticated `KiteConnect` handle:
`placeOrder` maps the index of a `kite.place_order` call to its outcome
(order id or raised error message) and `orderHistory` maps an order id to
the outcome of `kite.order_history`. -/
structure Broker where
  placeOrder : Nat → Except String String
  orderHistory : String → Except String (List OrderEntry)

/-- Result of a single exit order attempt (`executor.py`, `ExitOrderResult`). -/
structure ExitOrderResult where
  tradingsymbol : String
  exchange : String
  transaction_type : String
  quantity : Int
  order_id : Option String := none
  success : Bool := false
  error : String := ""
deriving Repr, DecidableEq

/-- Function `_determine_exit_transaction`: SELL for a long position, BUY for a short
one, the empty string (Python falsy sentinel) for zero quantity.  The
`KiteConnect` transaction-type constants are the strings "SELL" and "BUY". -/
def determine_exit_transaction (position : FnOPosition) : String :=
  if position.quantity > 0 then "SELL"
  else if position.quantity < 0 then "BUY"
  else ""

/-- Observable outcome of one `place_exit_order` call: the result record,
the next free `placeOrder` call index, how many broker order calls were
made, and how many 1-second retry sleeps were performed. -/
structure PlaceOutcome where
  result : ExitOrderResult
  nextCall : Nat
  brokerCalls : Nat
  sleeps : Nat
deriving Repr, DecidableEq

/-- The retry loop of `place_exit_order` (`for attempt in range(1, 4)`):
consult the broker; on success record the order id and return; on failure
record the error and, when attempts remain, sleep one second and retry. -/
def retry_loop (b : Broker) : Nat → ExitOrderResult → Nat → PlaceOutcome
  | idx, r, 0 => ⟨r, idx, 0, 0⟩
  | idx, r, n + 1 =>
    match b.placeOrder idx with
    | .ok oid => ⟨{ r with order_id := some oid, success := true }, idx + 1, 1, 0⟩
    | .error e =>
      match n with
      | 0 => ⟨{ r with error := e }, idx + 1, 1, 0⟩
      | m + 1 =>
        let o := retry_loop b (idx + 1) { r with error := e } (m + 1)
        ⟨o.result, o.nextCall, o.brokerCalls + 1, o.sleeps + 1⟩

/-- Function `place_exit_order`: zero-quantity sentinel short-circuit, dry-run
short-circuit, otherwise up to `max_retries = 3` real attempts. -/
def place_exit_order (b : Broker) (idx : Nat) (position : FnOPosition)
    (dry_run : Bool) : PlaceOutcome :=
  let transaction_type := determine_exit_transaction position
  let quantity := |position.quantity|
  if transaction_type = "" then
    ⟨{ tradingsymbol := position.tradingsymbol, exchange := position.exchange,
       transaction_type := "NONE", quantity := 0, success := false,
       error := "Position has zero quantity, nothing to exit." }, idx, 0, 0⟩
  else
    let result : ExitOrderResult :=
      { tradingsymbol := position.tradingsymbol, exchange := position.exchange,
        transaction_type := transaction_type, quantity := quantity }
    if dry_run then
      ⟨{ result with success := true, order_id := some "DRY_RUN" }, idx, 0, 0⟩
    else
      retry_loop b idx result 3

/-- Observable outcome of `exit_all_positions`. -/
structure BatchOutcome where
  results : List ExitOrderResult
  nextCall : Nat
  brokerCalls : Nat
deriving Repr, DecidableEq

/-- Function `exit_all_positions`: place one exit order per position, in input order,
collecting one result per position. -/
def exit_all_positions (b : Broker) (idx : Nat) :
    List FnOPosition → Bool → BatchOutcome
  | [], _ => ⟨[], idx, 0⟩
  | p :: rest, dry_run =>
    let o := place_exit_order b idx p dry_run
    let os := exit_all_positions b o.nextCall rest dry_run
    ⟨o.result :: os.results, os.nextCall, o.brokerCalls + os.brokerCalls⟩

/-- Python truthiness of `result.order_id` (an `Optional[str]`): `None` and
the empty string are falsy. -/
def order_id_truthy : Option String → Bool
  | none => false
  | some s => s ≠ ""

/-- Status check of one order inside the `verify_exit_orders` loop:
a raised lookup error yields `false`; an empty history falls through the
`if order_history:` guard leaving the flag untouched (`true` here); a
non-empty history contributes `true` exactly when the latest status is
COMPLETE (both REJECTED and any other status clear the flag). -/
def check_order (b : Broker) (r : ExitOrderResult) : Bool :=
  match b.orderHistory (r.order_id.getD "") with
  | .error _ => false
  | .ok order_history =>
    match order_history.getLast? with
    | none => true
    | some latest => latest.status = "COMPLETE"

/-- The `all_completed` flag threaded through the verification loop. -/
def verify_fold (b : Broker) : List ExitOrderResult → Bool → Bool
  | [], acc => acc
  | r :: rest, acc => verify_fold b rest (acc && check_order b r)

/-- Function `verify_exit_orders`: skip entirely on dry run; otherwise check every
successful result that carries a truthy order id; zero such results yields
`false`. -/
def verify_exit_orders (b : Broker) (results : List ExitOrderResult)
    (dry_run : Bool) : Bool :=
  if dry_run then true
  else
    let successful_results :=
      results.filter (fun r => r.success && order_id_truthy r.order_id)
    if successful_results.isEmpty then false
    else verify_fold b successful_results true

/-- Severity band of the threshold evaluation in `_poll_positions`
(monitor.py lines 194-222). -/
inductive Severity where
  | breach
  | approaching
  | elevated
  | normal
deriving Repr, DecidableEq

/-- monitor.py line 194:
`loss_ratio = abs(total_pnl) / config.max_loss if total_pnl < 0 else 0`. -/
def loss_ratio (total_pnl max_loss : ℚ) : ℚ :=
  if total_pnl < 0 then |total_pnl| / max_loss else 0

/-- The `if loss_ratio >= 1.0 / elif >= 0.8 / elif >= 0.5 / else` chain of
`_poll_positions`, as a band classification. -/
def classify_severity (total_pnl max_loss : ℚ) : Severity :=
  let r := loss_ratio total_pnl max_loss
  if r ≥ 1 then .breach
  else if r ≥ 0.8 then .approaching
  else if r ≥ 0.5 then .elevated
  else .normal

/-- Static configuration fields of `ExitWaveConfig` that the monitor loop
reads; `market_close` is the close time on the tick clock. -/
structure MonitorConfig where
  max_loss : ℚ
  poll_interval : ℚ
  market_close : ℚ
  exchanges : List String
  dry_run : Bool
deriving Repr, DecidableEq

/-- The mutable instance attributes of `PositionMonitor`, plus the thread
handle abstracted to an alive flag and a spawn counter. -/
structure MonitorState where
  stopSet : Bool
  exitCount : Nat
  allExitResults : List ExitOrderResult
  exitedSymbols : List String
  lastExitTime : Option ℚ
  pollCount : Nat
  lastPnl : Option ℚ
  peakLoss : ℚ
  threadAlive : Bool
  threadsSpawned : Nat
deriving Repr, DecidableEq

/-- Constant `_exit_cooldown = 30` seconds (monitor.py line 57). -/
def exit_cooldown : ℚ := 30

/-- Method `_trigger_exit`: bump the exit-event counter, place exit orders for all
positions, extend the session history, record the exited symbols, and stamp
the last-exit time with the current time.  (`verify_exit_orders` is invoked
for its logging only; its boolean is discarded by the caller.) -/
def trigger_exit (b : Broker) (idx : Nat) (cfg : MonitorConfig)
    (s : MonitorState) (positions : List FnOPosition) (now : ℚ) :
    MonitorState × Nat :=
  let s1 := { s with exitCount := s.exitCount + 1 }
  let batch := exit_all_positions b idx positions cfg.dry_run
  let s2 := { s1 with
    allExitResults := s1.allExitResults ++ batch.results,
    exitedSymbols := s1.exitedSymbols ++ positions.map FnOPosition.tradingsymbol,
    lastExitTime := some now }
  (s2, batch.nextCall)

/-- Observable outcome of one `_poll_positions` call. -/
structure PollOutcome where
  state : MonitorState
  nextCall : Nat
  exited : Bool
deriving Repr, DecidableEq

/-- Method `_poll_positions`: one poll cycle.  The Kite snapshot is passed in as
`raw`; the cycle filters it, aggregates P&L, tracks the peak loss, and
triggers the exit exactly on the `loss_ratio >= 1.0` branch — the
APPROACHING / ELEVATED / NORMAL branches only log. -/
def poll_positions (b : Broker) (idx : Nat) (cfg : MonitorConfig)
    (s : MonitorState) (raw : List FnOPosition) (now : ℚ) : PollOutcome :=
  let s0 := { s with pollCount := s.pollCount + 1 }
  let positions := get_open_fno_positions raw cfg.exchanges
  if positions.isEmpty then ⟨s0, idx, false⟩
  else
    let total_pnl := calculate_total_pnl positions
    let s1 := { s0 with
      lastPnl := some total_pnl,
      peakLoss := if total_pnl < s0.peakLoss then total_pnl else s0.peakLoss }
    if loss_ratio total_pnl cfg.max_loss ≥ 1 then
      let (s2, idx2) := trigger_exit b idx cfg s1 positions now
      ⟨s2, idx2, true⟩
    else
      ⟨s1, idx, false⟩

/-- What one iteration of `_monitor_loop` did. -/
inductive TickKind where
  | stopped
  | cooldown_wait
  | polled
deriving Repr, DecidableEq

/-- Observable outcome of one `_monitor_loop` iteration. -/
structure TickOutcome where
  state : MonitorState
  nextCall : Nat
  kind : TickKind
  exited : Bool
deriving Repr, DecidableEq

/-- One iteration of the `while not self._stop_event.is_set()` body of
`_monitor_loop` on the success path (the exception path is
`handle_poll_error` below): stop-signal check, market-close check
(`_is_market_open` is `now < close`), cooldown check
(`elapsed < self._exit_cooldown` skips the poll), then `_poll_positions`. -/
def monitor_tick (b : Broker) (idx : Nat) (cfg : MonitorConfig)
    (s : MonitorState) (raw : List FnOPosition) (now : ℚ) : TickOutcome :=
  if s.stopSet then ⟨s, idx, .stopped, false⟩
  else if ¬ now < cfg.market_close then ⟨s, idx, .stopped, false⟩
  else
    match s.lastExitTime with
    | some tExit =>
      if now - tExit < exit_cooldown then ⟨s, idx, .cooldown_wait, false⟩
      else
        let o := poll_positions b idx cfg s raw now
        ⟨o.state, o.nextCall, .polled, o.exited⟩
    | none =>
      let o := poll_positions b idx cfg s raw now
      ⟨o.state, o.nextCall, .polled, o.exited⟩

/-- Prefix test on character lists (Python substring search helper). -/
def leadsWith : List Char → List Char → Bool
  | _, [] => true
  | [], _ :: _ => false
  | h :: hs, n :: ns => h = n && leadsWith hs ns

/-- Python `needle in haystack` on strings: contiguous substring search. -/
def containsChars (needle : List Char) : List Char → Bool
  | [] => leadsWith [] needle
  | c :: hs => leadsWith (c :: hs) needle || containsChars needle hs

/-- Python `needle in haystack` lifted to `String`. -/
def strContains (haystack needle : String) : Bool :=
  containsChars needle.data haystack.data

/-- Python `str.lower` restricted to the ASCII error text compared here. -/
def strLower (s : String) : String :=
  String.mk (s.data.map Char.toLower)

/-- An exception caught by the poll loop: the exception class name
(`type(error).__name__`) and its message (`str(error)`). -/
structure PollError where
  name : String
  message : String
deriving Repr, DecidableEq

/-- The credential test of `_handle_poll_error`:
`"Token" in error_name or "token" in str(error).lower()`. -/
def is_auth_error (e : PollError) : Bool :=
  strContains e.name "Token" || strContains (strLower e.message) "token"

/-- Method `_handle_poll_error`: an authentication error sets the stop event (the
loop will observe it and end); any other error only logs a warning and
waits, leaving the monitor state untouched. -/
def handle_poll_error (s : MonitorState) (e : PollError) : MonitorState :=
  if is_auth_error e then { s with stopSet := true } else s

/-- Method `start()` (monitor.py lines 74-94): a no-op when the thread is already
alive; otherwise clear the stop event, reset the session counters (note:
`_last_pnl` is not reset), and spawn the background thread. -/
def start (s : MonitorState) : MonitorState :=
  if s.threadAlive then s
  else
    { s with
      stopSet := false,
      exitCount := 0,
      allExitResults := [],
      exitedSymbols := [],
      lastExitTime := none,
      pollCount := 0,
      peakLoss := 0,
      threadAlive := true,
      threadsSpawned := s.threadsSpawned + 1 }

/-- A broker whose order placement always succeeds and whose order-history
lookups return an empty history. -/
def brokerOkEmptyHist : Broker :=
  ⟨fun _ => .ok "OID", fun _ => .ok []⟩

/-- A broker whose first two order placements raise and whose third
succeeds. -/
def brokerFailTwice : Broker :=
  ⟨fun i => match i with
    | 0 => .error "error one"
    | 1 => .error "error two"
    | _ => .ok "OID3",
   fun _ => .ok []⟩

/-- The open-position pipeline collapses to one filter over the raw
snapshot: venue membership and non-zero quantity. -/
theorem get_open_fno_positions_eq_filter (raw : List FnOPosition)
    (exchanges : List String) :
    get_open_fno_positions raw exchanges =
      raw.filter (fun p => decide (p.exchange ∈ exchanges ∧ p.quantity ≠ 0)) := by
  unfold get_open_fno_positions parse_fno_positions
  rw [List.filter_filter]
  apply List.filter_congr
  intro p _
  simp [FnOPosition.isOpen, Bool.and_comm]

/-- C3: for every raw position snapshot and configured venue set, the
aggregate P&L equals the sum of the `pnl` field over exactly the positions
whose exchange is in the configured set and whose quantity is non-zero. -/
theorem aggregate_pnl_is_filtered_sum (raw : List FnOPosition)
    (exchanges : List String) :
    calculate_total_pnl (get_open_fno_positions raw exchanges) =
      ((raw.filter (fun p =>
        decide (p.exchange ∈ exchanges ∧ p.quantity ≠ 0))).map
          FnOPosition.pnl).sum := by
  rw [calculate_total_pnl, get_open_fno_positions_eq_filter]

/-- C2: the exit transaction is SELL for a long position and BUY for a
short one; for zero quantity it is the no-transaction sentinel, and
`place_exit_order` then returns a failed result with a non-empty error and
makes no broker order call. -/
theorem exit_transaction_correct (b : Broker) (idx : Nat) (p : FnOPosition)
    (dry_run : Bool) :
    (0 < p.quantity → determine_exit_transaction p = "SELL") ∧
    (p.quantity < 0 → determine_exit_transaction p = "BUY") ∧
    (p.quantity = 0 →
      determine_exit_transaction p = "" ∧
      (place_exit_order b idx p dry_run).result.success = false ∧
      (place_exit_order b idx p dry_run).result.error ≠ "" ∧
      (place_exit_order b idx p dry_run).brokerCalls = 0 ∧
      (place_exit_order b idx p dry_run).nextCall = idx) := by
  refine ⟨fun h => ?_, fun h => ?_, fun h => ?_⟩
  · simp [determine_exit_transaction, h]
  · simp [determine_exit_transaction, h, not_lt.mpr (le_of_lt h)]
  · have ht : determine_exit_transaction p = "" := by
      simp [determine_exit_transaction, h]
    refine ⟨ht, ?_, ?_, ?_, ?_⟩ <;>
      simp [place_exit_order, ht]

/-- Instantiation of `exit_transaction_correct` on concrete long, short and
flat positions. -/
theorem exit_transaction_correct_witness :
    (0 < (samplePosition "A" "NFO" 5 0).quantity ∧
      determine_exit_transaction (samplePosition "A" "NFO" 5 0) = "SELL") ∧
    ((samplePosition "B" "NFO" (-5) 0).quantity < 0 ∧
      determine_exit_transaction (samplePosition "B" "NFO" (-5) 0) = "BUY") ∧
    ((samplePosition "C" "NFO" 0 0).quantity = 0 ∧
      (place_exit_order brokerOkEmptyHist 0 (samplePosition "C" "NFO" 0 0)
        false).result.success = false ∧
      (place_exit_order brokerOkEmptyHist 0 (samplePosition "C" "NFO" 0 0)
        false).result.error ≠ "" ∧
      (place_exit_order brokerOkEmptyHist 0 (samplePosition "C" "NFO" 0 0)
        false).brokerCalls = 0) :=
  ⟨⟨by decide,
    (exit_transaction_correct brokerOkEmptyHist 0 (samplePosition "A" "NFO" 5 0)
      false).1 (by decide)⟩,
   ⟨by decide,
    (exit_transaction_correct brokerOkEmptyHist 0 (samplePosition "B" "NFO" (-5) 0)
      false).2.1 (by decide)⟩,
   ⟨by decide,
    ((exit_transaction_correct brokerOkEmptyHist 0 (samplePosition "C" "NFO" 0 0)
      false).2.2 (by decide)).2.1,
    ((exit_transaction_correct brokerOkEmptyHist 0 (samplePosition "C" "NFO" 0 0)
      false).2.2 (by decide)).2.2.1,
    ((exit_transaction_correct brokerOkEmptyHist 0 (samplePosition "C" "NFO" 0 0)
      false).2.2 (by decide)).2.2.2.1⟩⟩

/-- C8 counterexample: a snapshot venue differing from the configured venue
only in letter case ("nfo" vs configured "NFO") is NOT included: the open
non-zero-quantity position is dropped by the filter. -/
theorem venue_case_counterexample :
    strUpper (samplePosition "X" "nfo" 1 (-1)).exchange = "NFO" ∧
    (samplePosition "X" "nfo" 1 (-1)).quantity ≠ 0 ∧
    get_open_fno_positions [samplePosition "X" "nfo" 1 (-1)] ["NFO"] = [] := by
  refine ⟨by decide, by decide, ?_⟩
  simp [get_open_fno_positions, parse_fno_positions, samplePosition]

/-- C8 amended: only the configured venue codes are upper-cased (in
`build_config`); a snapshot position's venue is compared by exact,
case-sensitive membership, so a position is included iff its venue string
is literally one of the normalised configured codes. -/
theorem venue_filter_case_sensitive (raw : List FnOPosition)
    (cliExchanges : List String) (p : FnOPosition) :
    (p ∈ parse_fno_positions raw (build_exchanges cliExchanges) ↔
      p ∈ raw ∧ p.exchange ∈ build_exchanges cliExchanges) ∧
    (p.exchange ∉ build_exchanges cliExchanges →
      p ∉ parse_fno_positions raw (build_exchanges cliExchanges)) := by
  constructor
  · simp [parse_fno_positions, List.mem_filter]
  · intro h hmem
    have := (List.mem_filter.mp hmem).2
    simp at this
    exact h this

/-- Instantiation of `venue_filter_case_sensitive`: the lower-case snapshot
venue "nfo" is not a member of the normalised configured codes and the
position is excluded. -/
theorem venue_filter_case_sensitive_witness :
    (samplePosition "X" "nfo" 1 (-1)).exchange ∉ build_exchanges ["NFO"] ∧
    (samplePosition "X" "nfo" 1 (-1)) ∉
      parse_fno_positions [samplePosition "X" "nfo" 1 (-1)]
        (build_exchanges ["NFO"]) :=
  ⟨by decide,
   (venue_filter_case_sensitive [samplePosition "X" "nfo" 1 (-1)] ["NFO"]
     (samplePosition "X" "nfo" 1 (-1))).2 (by decide)⟩

/-- A monitor configuration used to instantiate theorems. -/
def sampleCfg : MonitorConfig :=
  { max_loss := 5000, poll_interval := 10, market_close := 930,
    exchanges := ["NFO"], dry_run := true }

/-- A fresh monitor session state used to instantiate theorems. -/
def sampleState : MonitorState :=
  { stopSet := false, exitCount := 0, allExitResults := [],
    exitedSymbols := [], lastExitTime := none, pollCount := 0,
    lastPnl := none, peakLoss := 0, threadAlive := true, threadsSpawned := 1 }

/-- C1: the loss ratio is `|pnl| / threshold` for a negative P&L and `0`
otherwise; the severity bands partition the ratio line as specified; the
poll cycle invokes the exit path iff there are open positions and the
ratio of their aggregate P&L reaches `1`; on every non-breach band the
exit-related session state is untouched. -/
theorem threshold_evaluator_correct (cfg : MonitorConfig)
    (hT : 0 < cfg.max_loss) (pnl : ℚ) (b : Broker) (idx : Nat)
    (s : MonitorState) (raw : List FnOPosition) (now : ℚ) :
    (pnl < 0 → loss_ratio pnl cfg.max_loss = |pnl| / cfg.max_loss) ∧
    (0 ≤ pnl → loss_ratio pnl cfg.max_loss = 0) ∧
    (classify_severity pnl cfg.max_loss = .breach ↔
      1 ≤ loss_ratio pnl cfg.max_loss) ∧
    (classify_severity pnl cfg.max_loss = .approaching ↔
      0.8 ≤ loss_ratio pnl cfg.max_loss ∧ loss_ratio pnl cfg.max_loss < 1) ∧
    (classify_severity pnl cfg.max_loss = .elevated ↔
      0.5 ≤ loss_ratio pnl cfg.max_loss ∧ loss_ratio pnl cfg.max_loss < 0.8) ∧
    ((poll_positions b idx cfg s raw now).exited = true ↔
      (get_open_fno_positions raw cfg.exchanges ≠ [] ∧
       1 ≤ loss_ratio
         (calculate_total_pnl (get_open_fno_positions raw cfg.exchanges))
         cfg.max_loss)) ∧
    ((poll_positions b idx cfg s raw now).exited = false →
      (poll_positions b idx cfg s raw now).state.exitCount = s.exitCount ∧
      (poll_positions b idx cfg s raw now).state.lastExitTime = s.lastExitTime ∧
      (poll_positions b idx cfg s raw now).state.exitedSymbols
        = s.exitedSymbols ∧
      (poll_positions b idx cfg s raw now).state.allExitResults
        = s.allExitResults) := by
  refine ⟨fun h => by simp [loss_ratio, h], fun h => by
    simp [loss_ratio, not_lt.mpr h], ?_, ?_, ?_, ?_, ?_⟩
  · simp only [classify_severity]
    split_ifs with h1 <;> simp_all [ge_iff_le]
  · simp only [classify_severity]
    split_ifs with h1 h2 <;> simp_all [ge_iff_le] <;> intro h <;> linarith
  · simp only [classify_severity]
    split_ifs with h1 h2 h3 <;> simp_all [ge_iff_le] <;> intro h <;> linarith
  · unfold poll_positions
    by_cases hp : (get_open_fno_positions raw cfg.exchanges).isEmpty
    · simp [hp, List.isEmpty_iff.mp hp]
    · have hne : get_open_fno_positions raw cfg.exchanges ≠ [] := by
        simpa [List.isEmpty_iff] using hp
      by_cases hb : 1 ≤ loss_ratio
          (calculate_total_pnl (get_open_fno_positions raw cfg.exchanges))
          cfg.max_loss
      · simp [hp, hb, trigger_exit, ge_iff_le, hne]
      · simp [hp, hb, ge_iff_le]
  · intro hfalse
    unfold poll_positions at hfalse ⊢
    by_cases hp : (get_open_fno_positions raw cfg.exchanges).isEmpty
    · simp [hp]
    · by_cases hb : 1 ≤ loss_ratio
          (calculate_total_pnl (get_open_fno_positions raw cfg.exchanges))
          cfg.max_loss
      · simp [hp, hb, trigger_exit, ge_iff_le] at hfalse
      · simp [hp, hb, ge_iff_le]

/-- Instantiation of `threshold_evaluator_correct` on the spec's scenario A
numbers: aggregate P&L −5500 against threshold 5000 gives ratio 1.1 —
BREACH — and the poll cycle exits. -/
theorem threshold_evaluator_correct_witness :
    0 < sampleCfg.max_loss ∧
    (classify_severity (-5500) sampleCfg.max_loss = .breach ↔
      1 ≤ loss_ratio (-5500) sampleCfg.max_loss) ∧
    (poll_positions brokerOkEmptyHist 0 sampleCfg sampleState
      [samplePosition "X" "NFO" 50 (-5500)] 5).exited = true := by
  have h := threshold_evaluator_correct sampleCfg (by norm_num [sampleCfg])
    (-5500) brokerOkEmptyHist 0 sampleState
    [samplePosition "X" "NFO" 50 (-5500)] 5
  refine ⟨by norm_num [sampleCfg], h.2.2.1, ?_⟩
  apply h.2.2.2.2.2.1.mpr
  constructor
  · simp [get_open_fno_positions, parse_fno_positions, samplePosition,
      sampleCfg, FnOPosition.isOpen]
  · have : calculate_total_pnl (get_open_fno_positions
        [samplePosition "X" "NFO" 50 (-5500)] sampleCfg.exchanges)
        = -5500 := by
      simp [get_open_fno_positions, parse_fno_positions, samplePosition,
        sampleCfg, FnOPosition.isOpen, calculate_total_pnl]
    rw [this]
    norm_num [loss_ratio, sampleCfg]

/-- Every branch of a poll cycle increments the poll counter by one. -/
theorem poll_positions_pollCount (b : Broker) (idx : Nat)
    (cfg : MonitorConfig) (s : MonitorState) (raw : List FnOPosition)
    (now : ℚ) :
    (poll_positions b idx cfg s raw now).state.pollCount = s.pollCount + 1 := by
  unfold poll_positions
  by_cases hp : (get_open_fno_positions raw cfg.exchanges).isEmpty
  · simp [hp]
  · by_cases hb : 1 ≤ loss_ratio
        (calculate_total_pnl (get_open_fno_positions raw cfg.exchanges))
        cfg.max_loss
    · simp [hp, hb, trigger_exit, ge_iff_le]
    · simp [hp, hb, ge_iff_le]

/-- When open positions are present, a poll cycle stores their aggregate
P&L in `_last_pnl` (re-aggregation). -/
theorem poll_positions_lastPnl (b : Broker) (idx : Nat)
    (cfg : MonitorConfig) (s : MonitorState) (raw : List FnOPosition)
    (now : ℚ) (hne : get_open_fno_positions raw cfg.exchanges ≠ []) :
    (poll_positions b idx cfg s raw now).state.lastPnl =
      some (calculate_total_pnl (get_open_fno_positions raw cfg.exchanges)) := by
  unfold poll_positions
  have hp : ¬ (get_open_fno_positions raw cfg.exchanges).isEmpty := by
    simpa [List.isEmpty_iff] using hne
  by_cases hb : 1 ≤ loss_ratio
      (calculate_total_pnl (get_open_fno_positions raw cfg.exchanges))
      cfg.max_loss
  · simp [hp, hb, trigger_exit, ge_iff_le]
  · simp [hp, hb, ge_iff_le]

/-- C4: with the stop signal clear, the market open and a stamped last-exit
time, a loop tick whose elapsed time since the exit is below the 30-second
cooldown skips the poll entirely (state unchanged, nothing fetched), while
a tick at or past the cooldown polls again: the poll counter advances and,
when open positions are present, the aggregate P&L is recomputed. -/
theorem cooldown_gates_polls (b : Broker) (idx : Nat) (cfg : MonitorConfig)
    (s : MonitorState) (raw : List FnOPosition) (now tExit : ℚ)
    (hstop : s.stopSet = false) (hmkt : now < cfg.market_close)
    (hlast : s.lastExitTime = some tExit) :
    (now - tExit < exit_cooldown →
      monitor_tick b idx cfg s raw now = ⟨s, idx, .cooldown_wait, false⟩) ∧
    (exit_cooldown ≤ now - tExit →
      (monitor_tick b idx cfg s raw now).kind = .polled ∧
      (monitor_tick b idx cfg s raw now).state.pollCount = s.pollCount + 1 ∧
      (get_open_fno_positions raw cfg.exchanges ≠ [] →
        (monitor_tick b idx cfg s raw now).state.lastPnl =
          some (calculate_total_pnl
            (get_open_fno_positions raw cfg.exchanges)))) := by
  constructor
  · intro hcool
    simp [monitor_tick, hstop, hmkt, hlast, hcool]
  · intro hcool
    have hnc : ¬ now - tExit < exit_cooldown := not_lt.mpr hcool
    refine ⟨?_, ?_, fun hne => ?_⟩
    · simp [monitor_tick, hstop, hmkt, hlast, hnc]
    · simp [monitor_tick, hstop, hmkt, hlast, hnc, poll_positions_pollCount]
    · simp [monitor_tick, hstop, hmkt, hlast, hnc,
        poll_positions_lastPnl b idx cfg s raw now hne]

/-- Instantiation of `cooldown_gates_polls` on the spec scenario: cooldown
30, exit stamped at t = 0, one open position present — the tick at t = 5
skips, the tick at t = 31 polls and re-aggregates. -/
theorem cooldown_gates_polls_witness :
    ({ sampleState with lastExitTime := some 0 } : MonitorState).stopSet
        = false ∧
    (5 : ℚ) < sampleCfg.market_close ∧ (31 : ℚ) < sampleCfg.market_close ∧
    (5 : ℚ) - 0 < exit_cooldown ∧ exit_cooldown ≤ (31 : ℚ) - 0 ∧
    monitor_tick brokerOkEmptyHist 0 sampleCfg
        { sampleState with lastExitTime := some 0 }
        [samplePosition "X" "NFO" 50 (-100)] 5 =
      ⟨{ sampleState with lastExitTime := some 0 }, 0, .cooldown_wait,
        false⟩ ∧
    (monitor_tick brokerOkEmptyHist 0 sampleCfg
        { sampleState with lastExitTime := some 0 }
        [samplePosition "X" "NFO" 50 (-100)] 31).kind = .polled ∧
    (monitor_tick brokerOkEmptyHist 0 sampleCfg
        { sampleState with lastExitTime := some 0 }
        [samplePosition "X" "NFO" 50 (-100)] 31).state.lastPnl =
      some (calculate_total_pnl (get_open_fno_positions
        [samplePosition "X" "NFO" 50 (-100)] sampleCfg.exchanges)) := by
  have h5 := cooldown_gates_polls brokerOkEmptyHist 0 sampleCfg
    { sampleState with lastExitTime := some 0 }
    [samplePosition "X" "NFO" 50 (-100)] 5 0 rfl
    (by norm_num [sampleCfg]) rfl
  have h31 := cooldown_gates_polls brokerOkEmptyHist 0 sampleCfg
    { sampleState with lastExitTime := some 0 }
    [samplePosition "X" "NFO" 50 (-100)] 31 0 rfl
    (by norm_num [sampleCfg]) rfl
  have hne : get_open_fno_positions [samplePosition "X" "NFO" 50 (-100)]
      sampleCfg.exchanges ≠ [] := by
    simp [get_open_fno_positions, parse_fno_positions, samplePosition,
      sampleCfg, FnOPosition.isOpen]
  refine ⟨rfl, by norm_num [sampleCfg], by norm_num [sampleCfg],
    by norm_num [exit_cooldown], by norm_num [exit_cooldown],
    h5.1 (by norm_num [exit_cooldown]), ?_, ?_⟩
  · exact (h31.2 (by norm_num [exit_cooldown])).1
  · exact (h31.2 (by norm_num [exit_cooldown])).2.2 hne

/-- A successful exit result carrying a real order id, used to instantiate
the verification theorems. -/
def sampleResultOID : ExitOrderResult :=
  { tradingsymbol := "X", exchange := "NFO", transaction_type := "SELL",
    quantity := 1, order_id := some "OID", success := true, error := "" }

/-- The claim's notion of "latest order status" of a checked result: the
status of the last history entry the broker returns for its order id, when
the lookup succeeds and the history is non-empty.  (Stated from the spec's
words, for comparison with `verify_exit_orders`.) -/
def latest_status (b : Broker) (r : ExitOrderResult) : Option String :=
  match b.orderHistory (r.order_id.getD "") with
  | .error _ => none
  | .ok hist => hist.getLast?.map OrderEntry.status

/-- The `all_completed` flag equals the conjunction of the per-order
checks: the loop never aborts early, every order is checked. -/
theorem verify_fold_eq_all (b : Broker) (l : List ExitOrderResult)
    (acc : Bool) :
    verify_fold b l acc = (acc && l.all (check_order b)) := by
  induction l generalizing acc with
  | nil => simp [verify_fold]
  | cons r rest ih => simp [verify_fold, ih, Bool.and_assoc]

/-- The per-order check succeeds iff the history lookup succeeds and the
returned history is either empty (silently skipped by the code) or ends in
a COMPLETE entry. -/
theorem check_order_iff (b : Broker) (r : ExitOrderResult) :
    check_order b r = true ↔
      ∃ hist, b.orderHistory (r.order_id.getD "") = Except.ok hist ∧
        (hist = [] ∨ hist.getLast?.map OrderEntry.status = some "COMPLETE") := by
  unfold check_order
  cases hb : b.orderHistory (r.order_id.getD "") with
  | error e => simp [hb]
  | ok hist =>
    cases hist with
    | nil => simp
    | cons a t =>
      cases hl : (a :: t).getLast? with
      | none => simp [List.getLast?] at hl
      | some latest => simp [hl]

/-- C5 counterexample: with `dryRun = false`, a single checked successful
result whose status-history lookup returns an empty list makes
`verify_exit_orders` return `true` although that result has no COMPLETE
latest status — refuting "returns true iff every checked successful
result's latest order status is COMPLETE". -/
theorem verify_empty_history_counterexample :
    verify_exit_orders brokerOkEmptyHist [sampleResultOID] false = true ∧
    latest_status brokerOkEmptyHist sampleResultOID ≠ some "COMPLETE" := by
  constructor
  · rfl
  · simp [latest_status, brokerOkEmptyHist]

/-- C5 amended: with `dryRun` true, verification reports success without
checking anything; with `dryRun` false it returns `true` iff there is at
least one successful result carrying a truthy order id and every such
result's lookup succeeds with a history that is empty or ends in COMPLETE
— so any REJECTED, any pending status and any lookup failure yield
`false`, as does a list with zero checked results; an empty history is
silently skipped. -/
theorem verify_exit_orders_spec (b : Broker)
    (results : List ExitOrderResult) :
    (verify_exit_orders b results true = true) ∧
    (verify_exit_orders b results false = true ↔
      (results.filter (fun r => r.success && order_id_truthy r.order_id)
          ≠ [] ∧
       ∀ r ∈ results.filter
          (fun r => r.success && order_id_truthy r.order_id),
         ∃ hist, b.orderHistory (r.order_id.getD "") = Except.ok hist ∧
           (hist = [] ∨
            hist.getLast?.map OrderEntry.status = some "COMPLETE"))) := by
  refine ⟨rfl, ?_⟩
  unfold verify_exit_orders
  by_cases hL : (results.filter
      (fun r => r.success && order_id_truthy r.order_id)).isEmpty
  · simp [hL, List.isEmpty_iff.mp hL]
  · have hne : results.filter
        (fun r => r.success && order_id_truthy r.order_id) ≠ [] := by
      simpa [List.isEmpty_iff] using hL
    simp [hL, hne, verify_fold_eq_all, List.all_eq_true, check_order_iff]
    constructor
    · intro h r hr hs ho
      rcases h r hr with (h1 | h1) | h2
      · simp [hs] at h1
      · simp [ho] at h1
      · exact h2
    · intro h r hr
      rcases Bool.eq_false_or_eq_true r.success with hs | hs
      · rcases Bool.eq_false_or_eq_true (order_id_truthy r.order_id)
          with ho | ho
        · exact Or.inr (h r hr hs ho)
        · exact Or.inl (Or.inr ho)
      · exact Or.inl (Or.inl hs)

/-- A position with non-zero quantity never yields the no-transaction
sentinel. -/
theorem determine_ne_empty (p : FnOPosition) (h : p.quantity ≠ 0) :
    determine_exit_transaction p ≠ "" := by
  unfold determine_exit_transaction
  rcases lt_or_gt_of_ne h with hlt | hgt
  · simp [hlt, not_lt.mpr hlt.le]
  · simp [hgt]

/-- C6: for a non-zero-quantity position with `dryRun` false, the order is
attempted at most 3 times against consecutive broker calls, with one
1-second sleep after each failed attempt except the last; a first success
returns immediately carrying that attempt's order id, and three failures
return a failed result carrying the third attempt's error. -/
theorem retry_policy (b : Broker) (idx : Nat) (p : FnOPosition)
    (hq : p.quantity ≠ 0) :
    ((place_exit_order b idx p false).brokerCalls ≤ 3) ∧
    (∀ oid, b.placeOrder idx = .ok oid →
      (place_exit_order b idx p false).result.success = true ∧
      (place_exit_order b idx p false).result.order_id = some oid ∧
      (place_exit_order b idx p false).brokerCalls = 1 ∧
      (place_exit_order b idx p false).sleeps = 0) ∧
    (∀ e1 oid, b.placeOrder idx = .error e1 →
      b.placeOrder (idx + 1) = .ok oid →
      (place_exit_order b idx p false).result.success = true ∧
      (place_exit_order b idx p false).result.order_id = some oid ∧
      (place_exit_order b idx p false).brokerCalls = 2 ∧
      (place_exit_order b idx p false).sleeps = 1) ∧
    (∀ e1 e2 oid, b.placeOrder idx = .error e1 →
      b.placeOrder (idx + 1) = .error e2 →
      b.placeOrder (idx + 2) = .ok oid →
      (place_exit_order b idx p false).result.success = true ∧
      (place_exit_order b idx p false).result.order_id = some oid ∧
      (place_exit_order b idx p false).brokerCalls = 3 ∧
      (place_exit_order b idx p false).sleeps = 2) ∧
    (∀ e1 e2 e3, b.placeOrder idx = .error e1 →
      b.placeOrder (idx + 1) = .error e2 →
      b.placeOrder (idx + 2) = .error e3 →
      (place_exit_order b idx p false).result.success = false ∧
      (place_exit_order b idx p false).result.error = e3 ∧
      (place_exit_order b idx p false).brokerCalls = 3 ∧
      (place_exit_order b idx p false).sleeps = 2) := by
  have ht := determine_ne_empty p hq
  have hpe : place_exit_order b idx p false =
      retry_loop b idx
        { tradingsymbol := p.tradingsymbol, exchange := p.exchange,
          transaction_type := determine_exit_transaction p,
          quantity := |p.quantity| } 3 := by
    simp [place_exit_order, ht]
  refine ⟨?_, ?_, ?_, ?_, ?_⟩
  · rw [hpe]
    cases h0 : b.placeOrder idx with
    | ok oid => simp [retry_loop, h0]
    | error e1 =>
      cases h1 : b.placeOrder (idx + 1) with
      | ok oid => simp [retry_loop, h0, h1]
      | error e2 =>
        cases h2 : b.placeOrder (idx + 1 + 1) with
        | ok oid => simp [retry_loop, h0, h1, h2]
        | error e3 => simp [retry_loop, h0, h1, h2]
  · intro oid h0
    rw [hpe]
    simp [retry_loop, h0]
  · intro e1 oid h0 h1
    rw [hpe]
    simp [retry_loop, h0, h1]
  · intro e1 e2 oid h0 h1 h2
    rw [hpe]
    simp only [show idx + 2 = idx + 1 + 1 from rfl] at h2
    simp [retry_loop, h0, h1, h2]
  · intro e1 e2 e3 h0 h1 h2
    rw [hpe]
    simp only [show idx + 2 = idx + 1 + 1 from rfl] at h2
    simp [retry_loop, h0, h1, h2]

/-- Instantiation of `retry_policy` on a broker that fails twice and then
succeeds: the call succeeds with the third attempt's order id after 3
broker calls and 2 retry sleeps. -/
theorem retry_policy_witness :
    (samplePosition "A" "NFO" 5 0).quantity ≠ 0 ∧
    brokerFailTwice.placeOrder 0 = .error "error one" ∧
    brokerFailTwice.placeOrder 1 = .error "error two" ∧
    brokerFailTwice.placeOrder 2 = .ok "OID3" ∧
    (place_exit_order brokerFailTwice 0 (samplePosition "A" "NFO" 5 0)
      false).result.success = true ∧
    (place_exit_order brokerFailTwice 0 (samplePosition "A" "NFO" 5 0)
      false).result.order_id = some "OID3" ∧
    (place_exit_order brokerFailTwice 0 (samplePosition "A" "NFO" 5 0)
      false).brokerCalls = 3 ∧
    (place_exit_order brokerFailTwice 0 (samplePosition "A" "NFO" 5 0)
      false).sleeps = 2 := by
  have h := (retry_policy brokerFailTwice 0 (samplePosition "A" "NFO" 5 0)
    (by decide)).2.2.2.1 "error one" "error two" "OID3" rfl rfl rfl
  exact ⟨by decide, rfl, rfl, rfl, h.1, h.2.1, h.2.2.1, h.2.2.2⟩

/-- A dry-run order placement makes no broker call and leaves the call
index alone; with non-zero quantity it succeeds with the sentinel id. -/
theorem place_dry_run (b : Broker) (idx : Nat) (p : FnOPosition) :
    ((place_exit_order b idx p true).brokerCalls = 0 ∧
     (place_exit_order b idx p true).nextCall = idx) ∧
    (p.quantity ≠ 0 →
      (place_exit_order b idx p true).result.success = true ∧
      (place_exit_order b idx p true).result.order_id = some "DRY_RUN") := by
  constructor
  · by_cases ht : determine_exit_transaction p = "" <;>
      simp [place_exit_order, ht]
  · intro hq
    have ht := determine_ne_empty p hq
    simp [place_exit_order, ht]

/-- C7 counterexample: a list containing a zero-quantity position refutes
"dryRun true yields a success result for every position" — the dry-run
exit of such a list produces a failed result (the zero-quantity check runs
before the dry-run branch). -/
theorem dry_run_zero_qty_counterexample :
    (exit_all_positions brokerOkEmptyHist 0 [samplePosition "Z" "NFO" 0 0]
      true).results.map ExitOrderResult.success = [false] := by
  rfl

/-- C7 amended: with `dryRun` true the exit path makes zero calls to the
broker order interface for any input list and produces one result per
input position, in order; each position with non-zero quantity gets a
success result carrying the sentinel order identifier "DRY_RUN", and each
zero-quantity position gets the pre-failed no-transaction result (not a
success): transaction type "NONE", no order id, a non-empty error. -/
theorem dry_run_behavior (b : Broker) (idx : Nat)
    (positions : List FnOPosition) :
    ((exit_all_positions b idx positions true).brokerCalls = 0 ∧
     (exit_all_positions b idx positions true).nextCall = idx) ∧
    (exit_all_positions b idx positions true).results.length
      = positions.length ∧
    ∀ pr ∈ positions.zip (exit_all_positions b idx positions true).results,
      (pr.1.quantity ≠ 0 →
        pr.2.success = true ∧ pr.2.order_id = some "DRY_RUN") ∧
      (pr.1.quantity = 0 →
        pr.2.success = false ∧ pr.2.order_id = none ∧
        pr.2.transaction_type = "NONE" ∧ pr.2.quantity = 0 ∧
        pr.2.error ≠ "") := by
  induction positions generalizing idx with
  | nil => simp [exit_all_positions]
  | cons p rest ih =>
    have hplace := place_dry_run b idx p
    have hcons : exit_all_positions b idx (p :: rest) true =
        ⟨(place_exit_order b idx p true).result ::
          (exit_all_positions b (place_exit_order b idx p true).nextCall
            rest true).results,
         (exit_all_positions b (place_exit_order b idx p true).nextCall
            rest true).nextCall,
         (place_exit_order b idx p true).brokerCalls +
           (exit_all_positions b (place_exit_order b idx p true).nextCall
             rest true).brokerCalls⟩ := rfl
    rw [hcons, hplace.1.2]
    refine ⟨⟨?_, ?_⟩, ?_, ?_⟩
    · simp [hplace.1.1, (ih idx).1.1]
    · exact (ih idx).1.2
    · simp [(ih idx).2.1]
    · intro pr hpr
      rw [List.zip_cons_cons] at hpr
      rcases List.mem_cons.mp hpr with hhead | htail
      · subst hhead
        constructor
        · intro hq
          exact hplace.2 hq
        · intro hq
          have hq' : p.quantity = 0 := hq
          have ht : determine_exit_transaction p = "" := by
            simp [determine_exit_transaction, hq']
          have hzero : place_exit_order b idx p true =
              ⟨{ tradingsymbol := p.tradingsymbol, exchange := p.exchange,
                 transaction_type := "NONE", quantity := 0, success := false,
                 error := "Position has zero quantity, nothing to exit." },
               idx, 0, 0⟩ := by
            simp [place_exit_order, ht]
          rw [hzero]
          exact ⟨rfl, rfl, rfl, rfl, by
            show ("Position has zero quantity, nothing to exit." : String)
              ≠ ""
            decide⟩
      · exact (ih idx).2.2 pr htail

/-- A mixed dry-run input list: long, flat and short positions. -/
def mixedPositions : List FnOPosition :=
  [samplePosition "A" "NFO" 5 0, samplePosition "C" "NFO" 0 0,
   samplePosition "B" "NFO" (-5) 0]

/-- The dry-run success result produced for the long position of
`mixedPositions`. -/
def dryRunResultA : ExitOrderResult :=
  { tradingsymbol := "A", exchange := "NFO", transaction_type := "SELL",
    quantity := 5, order_id := some "DRY_RUN", success := true, error := "" }

/-- The pre-failed result produced for the flat position of
`mixedPositions`. -/
def zeroQtyResultC : ExitOrderResult :=
  { tradingsymbol := "C", exchange := "NFO", transaction_type := "NONE",
    quantity := 0, order_id := none, success := false,
    error := "Position has zero quantity, nothing to exit." }

/-- Instantiation of `dry_run_behavior` on the mixed list: zero broker
calls, one result per position, a DRY_RUN success for the non-zero
position and the pre-failed result for the zero-quantity one. -/
theorem dry_run_behavior_witness :
    (samplePosition "A" "NFO" 5 0).quantity ≠ 0 ∧
    (samplePosition "C" "NFO" 0 0).quantity = 0 ∧
    (exit_all_positions brokerOkEmptyHist 0 mixedPositions true).brokerCalls
      = 0 ∧
    (exit_all_positions brokerOkEmptyHist 0 mixedPositions
      true).results.length = mixedPositions.length ∧
    ((samplePosition "A" "NFO" 5 0, dryRunResultA) ∈ mixedPositions.zip
      (exit_all_positions brokerOkEmptyHist 0 mixedPositions
        true).results) ∧
    dryRunResultA.success = true ∧
    dryRunResultA.order_id = some "DRY_RUN" ∧
    ((samplePosition "C" "NFO" 0 0, zeroQtyResultC) ∈ mixedPositions.zip
      (exit_all_positions brokerOkEmptyHist 0 mixedPositions
        true).results) ∧
    zeroQtyResultC.success = false ∧ zeroQtyResultC.order_id = none ∧
    zeroQtyResultC.transaction_type = "NONE" ∧
    zeroQtyResultC.quantity = 0 ∧ zeroQtyResultC.error ≠ "" := by
  have h := dry_run_behavior brokerOkEmptyHist 0 mixedPositions
  have hzip : mixedPositions.zip
      (exit_all_positions brokerOkEmptyHist 0 mixedPositions true).results =
      [(samplePosition "A" "NFO" 5 0, dryRunResultA),
       (samplePosition "C" "NFO" 0 0, zeroQtyResultC),
       (samplePosition "B" "NFO" (-5) 0,
        { tradingsymbol := "B", exchange := "NFO",
          transaction_type := "BUY", quantity := 5,
          order_id := some "DRY_RUN", success := true, error := "" })] := rfl
  have memA : (samplePosition "A" "NFO" 5 0, dryRunResultA) ∈
      mixedPositions.zip (exit_all_positions brokerOkEmptyHist 0
        mixedPositions true).results := by
    rw [hzip]
    exact List.Mem.head _
  have memC : (samplePosition "C" "NFO" 0 0, zeroQtyResultC) ∈
      mixedPositions.zip (exit_all_positions brokerOkEmptyHist 0
        mixedPositions true).results := by
    rw [hzip]
    exact List.Mem.tail _ (List.Mem.head _)
  have hA := (h.2.2 _ memA).1 (by decide)
  have hC := (h.2.2 _ memC).2 (by decide)
  exact ⟨by decide, by decide, h.1.1, h.2.1, memA, hA.1, hA.2, memC,
    hC.1, hC.2.1, hC.2.2.1, hC.2.2.2.1, hC.2.2.2.2⟩

/-- C9: an exception whose class name contains "Token" or whose lowered
message contains "token" is fatal — the stop event is set and the next
loop iteration terminates; any other exception leaves the monitor state
(and hence the polling loop) untouched. -/
theorem poll_error_classified (b : Broker) (idx : Nat)
    (cfg : MonitorConfig) (s : MonitorState) (raw : List FnOPosition)
    (e : PollError) (now : ℚ) :
    (is_auth_error e = true →
      (handle_poll_error s e).stopSet = true ∧
      (monitor_tick b idx cfg (handle_poll_error s e) raw now).kind
        = .stopped) ∧
    (is_auth_error e = false → handle_poll_error s e = s) := by
  constructor
  · intro h
    have hs : handle_poll_error s e = { s with stopSet := true } := by
      simp [handle_poll_error, h]
    exact ⟨by simp [hs], by simp [monitor_tick, hs]⟩
  · intro h
    simp [handle_poll_error, h]

/-- Instantiation of `poll_error_classified`: a `TokenException` stops the
loop; a `ConnectionError` leaves the state untouched. -/
theorem poll_error_classified_witness :
    is_auth_error ⟨"TokenException", "Incorrect access_token"⟩ = true ∧
    (monitor_tick brokerOkEmptyHist 0 sampleCfg
      (handle_poll_error sampleState
        ⟨"TokenException", "Incorrect access_token"⟩) [] 5).kind
      = .stopped ∧
    is_auth_error ⟨"ConnectionError", "Read timed out"⟩ = false ∧
    handle_poll_error sampleState ⟨"ConnectionError", "Read timed out"⟩
      = sampleState := by
  have hAuth := (poll_error_classified brokerOkEmptyHist 0 sampleCfg
    sampleState [] ⟨"TokenException", "Incorrect access_token"⟩ 5).1
    (by decide)
  have hNet := (poll_error_classified brokerOkEmptyHist 0 sampleCfg
    sampleState [] ⟨"ConnectionError", "Read timed out"⟩ 5).2 (by decide)
  exact ⟨by decide, hAuth.2, by decide, hNet⟩

/-- C10: `start()` on a running monitor is a complete no-op — no session
field is reset and no second thread is spawned; the session reset happens
only when the monitor is not running. -/
theorem start_running_noop (s : MonitorState) :
    (s.threadAlive = true → start s = s) ∧
    (s.threadAlive = false →
      (start s).stopSet = false ∧ (start s).exitCount = 0 ∧
      (start s).allExitResults = [] ∧ (start s).exitedSymbols = [] ∧
      (start s).lastExitTime = none ∧ (start s).pollCount = 0 ∧
      (start s).peakLoss = 0 ∧ (start s).threadAlive = true ∧
      (start s).threadsSpawned = s.threadsSpawned + 1) := by
  constructor
  · intro h
    simp [start, h]
  · intro h
    simp [start, h]

/-- A running mid-session monitor state used to instantiate `start`
theorems. -/
def sampleRunningState : MonitorState :=
  { stopSet := false, exitCount := 2, allExitResults := [sampleResultOID],
    exitedSymbols := ["X"], lastExitTime := some 100, pollCount := 7,
    lastPnl := some (-10), peakLoss := -20, threadAlive := true,
    threadsSpawned := 1 }

/-- Instantiation of `start_running_noop` on a mid-session running state:
`start` changes nothing at all. -/
theorem start_running_noop_witness :
    sampleRunningState.threadAlive = true ∧
    start sampleRunningState = sampleRunningState :=
  ⟨rfl, (start_running_noop sampleRunningState).1 rfl⟩
